import Mathlib

/-!
Verification of the situational-awareness analytics pipeline.

The Python sources under `analytics/` are embedded shallowly:
pure numeric code is modelled over `ℚ`, Python strings are Lean
`String`s, and Python dictionaries keyed by strings are association
lists.  Presentation-only string fields of the produced records
(titles, human-readable messages, icons) are not modelled; every
field that the analytics logic reads or that the specification
constrains is.
-/

/-- Python string comparison (lexicographic on code points), as a
Boolean on character lists.  Used to model the builtin `max` on
strings in `early_warning.py`. -/
def strLtB : List Char → List Char → Bool
  | [], [] => false
  | [], _ :: _ => true
  | _ :: _, [] => false
  | a :: as, b :: bs =>
    if a.toNat < b.toNat then true
    else if b.toNat < a.toNat then false
    else strLtB as bs

/-- Python substring test `needle in hay` on character lists. -/
def subMem (needle : List Char) : List Char → Bool
  | [] => needle.isEmpty
  | c :: t => needle.isPrefixOf (c :: t) || subMem needle t

/-- Python `needle in hay` for strings. -/
def strContains (needle hay : String) : Bool :=
  subMem needle.toList hay.toList

/-- Python `str.lower()` (sources only use ASCII topics). -/
def lowerStr (s : String) : String :=
  String.mk (s.toList.map Char.toLower)

/-- Python `max` over a list of strings: the first element, replaced by
any later element that compares strictly greater.  Total, returning ""
on the empty list (where Python would raise). -/
def pyMaxStr : List String → String
  | [] => ""
  | h :: t => t.foldl (fun m x => if strLtB m.toList x.toList then x else m) h

/-- The `Signal` dataclass from `analytics/models.py`, restricted to the
fields the analytics stages read: `signal_id`, `description` and the two
timestamps are write-only provenance data and are omitted; of the
`metadata` dictionary only the `location` key is ever read (by the
geographic warning rule), modelled as an `Option`. -/
structure Signal where
  signal_type : String
  topic : String
  urgency : String
  confidence_score : ℚ
  source_count : ℕ
  location : Option String := none
deriving DecidableEq

/-- Lookup in an association list with a default, modelling Python
`dict.get(key, default)`. -/
def dictGetD : List (String × ℚ) → String → ℚ → ℚ
  | [], _, dflt => dflt
  | (k, v) :: t, key, dflt => if key = k then v else dictGetD t key dflt

/-- `SignalScorer.URGENCY_WEIGHTS`. -/
def URGENCY_WEIGHTS : List (String × ℚ) :=
  [("critical", 100), ("high", 75), ("medium", 50), ("low", 25)]

/-- `SignalScorer.TYPE_WEIGHTS`. -/
def TYPE_WEIGHTS : List (String × ℚ) :=
  [("spike", 6/5), ("trend", 9/10), ("sentiment_shift", 11/10),
   ("geographic_hotspot", 1), ("anomaly", 13/10)]

/-- `SignalScorer.score_signal`.  The parameter `lg` abstracts the
transcendental `math.log10` applied to `max(1, source_count)`; every
theorem below holds for an arbitrary choice of `lg`. -/
def score_signal (lg : ℕ → ℚ) (s : Signal) : ℚ :=
  let base_score := dictGetD URGENCY_WEIGHTS s.urgency 25
  let type_mult := dictGetD TYPE_WEIGHTS s.signal_type 1
  let confidence_factor := 1/2 + s.confidence_score / 200
  let volume_factor := min (3/2) (1 + lg (max 1 s.source_count) / 10)
  min 100 (max 0 (base_score * type_mult * confidence_factor * volume_factor))

/-- Comparison used by `rank_signals`: descending on the score
component of a `(signal, score)` pair. -/
def scoreGE (p q : Signal × ℚ) : Prop := q.2 ≤ p.2

instance : DecidableRel scoreGE := fun p q =>
  inferInstanceAs (Decidable (q.2 ≤ p.2))

instance : IsTotal (Signal × ℚ) scoreGE :=
  ⟨fun p q => le_total q.2 p.2⟩

instance : IsTrans (Signal × ℚ) scoreGE :=
  ⟨fun _ _ _ h1 h2 => le_trans h2 h1⟩

/-- `SignalScorer.rank_signals`: score every signal and stable-sort the
`(signal, score)` pairs by score descending (Python `sorted` with
`reverse=True` is a stable descending sort; insertion sort with a
total preorder is its standard model). -/
def rank_signals (lg : ℕ → ℚ) (signals : List Signal) : List (Signal × ℚ) :=
  List.insertionSort scoreGE (signals.map (fun s => (s, score_signal lg s)))

/-- Trend-band classification from
`VelocityTracker.calculate_topic_velocity` (the `if`/`elif` chain on the
computed `velocity`). -/
def velocityTrend (velocity : ℚ) : String :=
  if velocity > 2 then "ACCELERATING"
  else if velocity > 1/2 then "GROWING"
  else if velocity > -(1/2) then "STABLE"
  else if velocity > -2 then "DECLINING"
  else "FADING"

/-- `statistics.mean` (callers guard against empty input; the Lean
convention `x / 0 = 0` makes the total function agree on all guarded
calls). -/
def mean (l : List ℚ) : ℚ := l.sum / l.length

/-- Round-half-to-even to an integer, modelling Python `round`. -/
def roundHalfEven (q : ℚ) : ℤ :=
  let n := ⌊q⌋
  let f := q - n
  if f < 1/2 then n
  else if 1/2 < f then n + 1
  else if Even n then n else n + 1

/-- Python `round(q, d)`. -/
def roundTo (d : ℕ) (q : ℚ) : ℚ :=
  (roundHalfEven (q * 10 ^ d) : ℚ) / 10 ^ d

/-! ### Composite indices (`composite_indices.py`) -/

/-- `CompositeIndexCalculator.ECONOMIC_TOPICS`. -/
def ECONOMIC_TOPICS : List String :=
  ["fuel prices", "inflation", "rupee exchange rate", "economy", "salary", "cost"]

/-- `CompositeIndexCalculator.INFRASTRUCTURE_TOPICS`. -/
def INFRASTRUCTURE_TOPICS : List String :=
  ["power cut", "road conditions", "public transport",
   "water shortage", "electricity", "transport"]

/-- `CompositeIndexCalculator.WEATHER_TOPICS`. -/
def WEATHER_TOPICS : List String :=
  ["monsoon rain", "flood warning", "drought", "weather", "rainfall", "cyclone"]

/-- `CompositeIndexCalculator.POLITICAL_TOPICS`. -/
def POLITICAL_TOPICS : List String :=
  ["protest", "government policy", "election", "parliament", "demonstration"]

/-- `CompositeIndexCalculator.URGENCY_SCORES`. -/
def URGENCY_SCORES : List (String × ℚ) :=
  [("critical", 100), ("high", 75), ("medium", 50), ("low", 25)]

/-- The category filter `any(topic in s.topic.lower() for topic in CATS)`. -/
def topicMatches (cats : List String) (s : Signal) : Bool :=
  cats.any (fun t => strContains t (lowerStr s.topic))

/-- Result record of one composite index: the `score`, `level` and
`signal_count` entries of the returned dictionary (the advisory
`description` and `top_concerns` strings are presentation only). -/
structure IndexResult where
  score : ℚ
  level : String
  signal_count : ℕ
deriving DecidableEq

/-- Level thresholds shared by all four calculators and the overall
score: 70 / 50 / 30. -/
def levelOf (index : ℚ) : String :=
  if index ≥ 70 then "CRITICAL"
  else if index ≥ 50 then "HIGH"
  else if index ≥ 30 then "MEDIUM"
  else "LOW"

/-- Common body of `calculate_economic_stress_index` and
`calculate_weather_impact_index`, which are verbatim identical in the
source apart from the keyword list and the advisory strings: per-signal
contribution `URGENCY_SCORES.get(urgency, 0) * confidence/100`,
normalised by `len * 100`. -/
def urgencyConfidenceIndex (cats : List String) (signals : List Signal) : IndexResult :=
  let matching := signals.filter (topicMatches cats)
  if matching.isEmpty then ⟨0, "LOW", 0⟩
  else
    let total_score :=
      (matching.map (fun s =>
        dictGetD URGENCY_SCORES s.urgency 0 * (s.confidence_score / 100))).sum
    let max_possible := (matching.length : ℚ) * 100
    let index := if max_possible > 0 then total_score / max_possible * 100 else 0
    ⟨roundTo 1 index, levelOf index, matching.length⟩

/-- `CompositeIndexCalculator.calculate_economic_stress_index`. -/
def calculate_economic_stress_index (signals : List Signal) : IndexResult :=
  urgencyConfidenceIndex ECONOMIC_TOPICS signals

/-- `CompositeIndexCalculator.calculate_weather_impact_index`. -/
def calculate_weather_impact_index (signals : List Signal) : IndexResult :=
  urgencyConfidenceIndex WEATHER_TOPICS signals

/-- `CompositeIndexCalculator.calculate_operational_risk_index`:
adds the volume boost `min(1.5, 1 + source_count/100)` per signal and
normalises by `len * 100 * 1.5`. -/
def calculate_operational_risk_index (signals : List Signal) : IndexResult :=
  let matching := signals.filter (topicMatches INFRASTRUCTURE_TOPICS)
  if matching.isEmpty then ⟨0, "LOW", 0⟩
  else
    let total_score :=
      (matching.map (fun s =>
        dictGetD URGENCY_SCORES s.urgency 0 * (s.confidence_score / 100) *
          min (3/2) (1 + (s.source_count : ℚ) / 100))).sum
    let max_possible := (matching.length : ℚ) * 100 * (3/2)
    let index := if max_possible > 0 then total_score / max_possible * 100 else 0
    ⟨roundTo 1 index, levelOf index, matching.length⟩

/-- `CompositeIndexCalculator.calculate_social_unrest_index`:
volume multiplier `1 + source_count/50` (uncapped), normalised by
`len * 100 * 2`. -/
def calculate_social_unrest_index (signals : List Signal) : IndexResult :=
  let matching := signals.filter (topicMatches POLITICAL_TOPICS)
  if matching.isEmpty then ⟨0, "LOW", 0⟩
  else
    let total_score :=
      (matching.map (fun s =>
        dictGetD URGENCY_SCORES s.urgency 0 * (s.confidence_score / 100) *
          (1 + (s.source_count : ℚ) / 50))).sum
    let max_possible := (matching.length : ℚ) * 100 * 2
    let index := if max_possible > 0 then total_score / max_possible * 100 else 0
    ⟨roundTo 1 index, levelOf index, matching.length⟩

/-- `CompositeIndexCalculator.calculate_all_indices`. -/
structure AllIndices where
  economic_stress : IndexResult
  operational_risk : IndexResult
  weather_impact : IndexResult
  social_unrest : IndexResult
deriving DecidableEq

def calculate_all_indices (signals : List Signal) : AllIndices :=
  ⟨calculate_economic_stress_index signals,
   calculate_operational_risk_index signals,
   calculate_weather_impact_index signals,
   calculate_social_unrest_index signals⟩

/-- Python `all_indices[key]["score"]` for the four weight keys. -/
def componentScore (a : AllIndices) (key : String) : ℚ :=
  if key = "economic_stress" then a.economic_stress.score
  else if key = "operational_risk" then a.operational_risk.score
  else if key = "weather_impact" then a.weather_impact.score
  else if key = "social_unrest" then a.social_unrest.score
  else 0

/-- The fixed `weights` dictionary of
`get_overall_business_risk_score`, in its Python insertion order. -/
def RISK_WEIGHTS : List (String × ℚ) :=
  [("economic_stress", 35/100), ("operational_risk", 35/100),
   ("weather_impact", 15/100), ("social_unrest", 15/100)]

/-- Overall risk record: `overall_score` and `level` (the recommended
`action` string is determined by `level` and is presentation only). -/
structure OverallRisk where
  overall_score : ℚ
  level : String
deriving DecidableEq

/-- `CompositeIndexCalculator.get_overall_business_risk_score`. -/
def get_overall_business_risk_score (signals : List Signal) : OverallRisk :=
  let all_indices := calculate_all_indices signals
  let overall_score :=
    (RISK_WEIGHTS.map (fun kw => componentScore all_indices kw.1 * kw.2)).sum
  ⟨roundTo 1 overall_score, levelOf overall_score⟩

/-! ### Early warning system (`early_warning.py`) -/

/-- One early warning: the `type`, `topic`, `priority` and
`current_urgency` entries of the emitted dictionary (`type` is a Lean
keyword, hence the field name `wtype`; message/prediction/action
strings and the metadata sub-dictionary are presentation only). -/
structure Warning where
  wtype : String
  topic : String
  priority : String
  current_urgency : String
deriving DecidableEq

/-- The economic topic cluster of `_detect_correlation_warnings`
(note: unlike `ECONOMIC_TOPICS` it has no `salary` entry). -/
def economicCorrTopics : List String :=
  ["fuel prices", "inflation", "rupee exchange rate", "economy", "cost"]

/-- The infrastructure topic cluster of `_detect_correlation_warnings`
(note: `transport` replaces `public transport` of
`INFRASTRUCTURE_TOPICS`). -/
def infraCorrTopics : List String :=
  ["power cut", "road conditions", "transport", "water shortage", "electricity"]

/-- `EarlyWarningSystem._detect_correlation_warnings`. -/
def detect_correlation_warnings (signals : List Signal) : List Warning :=
  let economic_signals := signals.filter (topicMatches economicCorrTopics)
  let econPart : List Warning :=
    if 2 ≤ economic_signals.length then
      let avg_urgency :=
        (economic_signals.filter (fun s =>
          decide (s.urgency = "critical" ∨ s.urgency = "high"))).length
      [⟨"correlation", "economic_cluster",
        if 1 ≤ avg_urgency then "HIGH" else "MEDIUM", "high"⟩]
    else []
  let infra_signals := signals.filter (topicMatches infraCorrTopics)
  let infraPart : List Warning :=
    if 2 ≤ infra_signals.length then
      [⟨"correlation", "infrastructure_cluster", "HIGH", "high"⟩]
    else []
  econPart ++ infraPart

/-- One step of building `topic_volumes` in
`_detect_persistence_warnings`: `topic_volumes[topic] += source_count`,
inserting on first occurrence (Python dictionaries preserve insertion
order). -/
def addVolume (acc : List (String × ℕ)) (s : Signal) : List (String × ℕ) :=
  if acc.any (fun p => decide (p.1 = s.topic)) then
    acc.map (fun p => if p.1 = s.topic then (p.1, p.2 + s.source_count) else p)
  else acc ++ [(s.topic, s.source_count)]

/-- The `topic_volumes` dictionary of `_detect_persistence_warnings`. -/
def topicVolumes (signals : List Signal) : List (String × ℕ) :=
  signals.foldl addVolume []

/-- `EarlyWarningSystem._detect_persistence_warnings`.  The
`current_urgency` entry is Python `max(...)` over the urgency strings,
which compares lexicographically. -/
def detect_persistence_warnings (signals : List Signal) : List Warning :=
  (topicVolumes signals).filterMap (fun tv =>
    if 50 < tv.2 then
      let topic_signals := signals.filter (fun s => decide (s.topic = tv.1))
      if topic_signals.isEmpty then none
      else
        some ⟨"persistence", tv.1, "MEDIUM",
              pyMaxStr (topic_signals.map (fun s => s.urgency))⟩
    else none)

/-- One entry of `cascade_chains` in `_detect_cascade_warnings`. -/
structure CascadeChain where
  trigger : List String
  effects : List String
  title : String
deriving DecidableEq

/-- The `cascade_chains` table. -/
def cascade_chains : List CascadeChain :=
  [⟨["fuel prices", "rupee exchange rate"], ["inflation", "cost", "transport"],
    "Economic Cascade"⟩,
   ⟨["flood warning", "monsoon rain"], ["road conditions", "power cut", "water shortage"],
    "Weather Cascade"⟩,
   ⟨["power cut"], ["water shortage", "public transport"],
    "Infrastructure Cascade"⟩]

/-- The warning topic `chain["title"].lower().replace(" ", "_")`. -/
def chainTopic (c : CascadeChain) : String :=
  String.mk ((lowerStr c.title).toList.map (fun ch => if ch = ' ' then '_' else ch))

/-- Trigger keyword match of one cascade chain against one signal. -/
def triggerMatch (c : CascadeChain) (s : Signal) : Bool :=
  c.trigger.any (fun t => strContains t (lowerStr s.topic))

/-- Effect keyword match of one cascade chain against one signal. -/
def effectMatch (c : CascadeChain) (s : Signal) : Bool :=
  c.effects.any (fun e => strContains e (lowerStr s.topic))

/-- `EarlyWarningSystem._detect_cascade_warnings`. -/
def detect_cascade_warnings (signals : List Signal) : List Warning :=
  cascade_chains.filterMap (fun chain =>
    let trigger_signals := signals.filter (triggerMatch chain)
    let effect_signals := signals.filter (effectMatch chain)
    if trigger_signals ≠ [] ∧ effect_signals ≠ [] then
      some ⟨"cascade", chainTopic chain, "CRITICAL", "critical"⟩
    else none)

/-! ### Pattern detector and velocity tracker (`pattern_detector.py`,
`velocity_tracker.py`).  Both read rows from the database; the query
capability is modelled as the list of fetched rows, passed as an
argument. -/

/-- One row of the spike query: `(topic, count, urgency)` grouped by
topic and urgency over the last 24 hours. -/
structure SpikeRow where
  topic : String
  count : ℕ
  urgency : String
deriving DecidableEq

/-- `PatternDetector._calculate_spike_urgency`. -/
def calculate_spike_urgency (count : ℕ) (avg : ℚ) (inherent_urgency : String) : String :=
  let multiplier := if avg > 0 then (count : ℚ) / avg else 1
  if multiplier > 3 ∨ inherent_urgency = "high" then "critical"
  else if multiplier > 5/2 then "high"
  else if multiplier > 2 then "medium"
  else "low"

/-- `PatternDetector.detect_topic_spikes` as a function of the fetched
rows (`threshold_multiplier` defaults to 2.0 at the call sites). -/
def detect_topic_spikes (threshold_multiplier : ℚ) (rows : List SpikeRow) : List Signal :=
  if rows.isEmpty then []
  else
    let avg_count := mean (rows.map (fun r => (r.count : ℚ)))
    rows.filterMap (fun r =>
      if (r.count : ℚ) > avg_count * threshold_multiplier then
        let severity_multiplier := (r.count : ℚ) / avg_count
        some { signal_type := "spike", topic := r.topic,
               urgency := calculate_spike_urgency r.count avg_count r.urgency,
               confidence_score := min 95 (70 + severity_multiplier * 5),
               source_count := r.count, location := none }
      else none)

/-- One row of the hourly queries of `detect_trending_topics` and
`calculate_topic_velocity`: `(topic, hour, count)`; the hour is only
used for ordering, which the list order already carries. -/
structure HourRow where
  topic : String
  count : ℕ
deriving DecidableEq

/-- Grouping of hourly rows into per-topic count series, preserving
first-occurrence topic order (Python dictionary insertion order) and
per-topic row order. -/
def groupCounts (rows : List HourRow) : List (String × List ℕ) :=
  rows.foldl (fun acc r =>
    if acc.any (fun p => decide (p.1 = r.topic)) then
      acc.map (fun p => if p.1 = r.topic then (p.1, p.2 ++ [r.count]) else p)
    else acc ++ [(r.topic, [r.count])]) []

/-- Output of the trend rule for one topic: the fields of the emitted
trend `Signal` that are data (topic, fixed urgency and confidence,
summed source count) plus the `velocity`, `recent_avg` and `older_avg`
metadata entries. -/
structure TrendOut where
  topic : String
  urgency : String
  confidence_score : ℚ
  source_count : ℕ
  velocity : ℚ
  recent_avg : ℚ
  older_avg : ℚ
deriving DecidableEq

/-- Per-topic body of `PatternDetector.detect_trending_topics`:
`recent_avg = mean(counts[-3:])`,
`older_avg = mean(counts[:-3]) if len(counts) > 3 else counts[0]`,
emit when `recent_avg > older_avg * 1.5` with velocity
`(recent_avg - older_avg) / len(counts)`. -/
def trendForTopic (topic : String) (counts : List ℕ) : Option TrendOut :=
  if counts.length < 3 then none
  else
    let recent_avg := mean ((counts.drop (counts.length - 3)).map (fun n => (n : ℚ)))
    let older_avg :=
      if counts.length > 3 then mean ((counts.take (counts.length - 3)).map (fun n => (n : ℚ)))
      else (counts.getD 0 0 : ℚ)
    if recent_avg > older_avg * (3/2) then
      some ⟨topic, "medium", 75, counts.sum,
            (recent_avg - older_avg) / counts.length, recent_avg, older_avg⟩
    else none

/-- `PatternDetector.detect_trending_topics` over the fetched rows. -/
def detect_trending_topics (rows : List HourRow) : List TrendOut :=
  (groupCounts rows).filterMap (fun tc => trendForTopic tc.1 tc.2)

/-- Modelled from the spec: the trend rule as the specification words
it, with the older average always `mean(counts[:-3])` — the mean of
all buckets before the last 3 (the mean of an empty prefix is read as
0 under the `ℚ` convention `x / 0 = 0`). -/
def trendForTopicSpec (topic : String) (counts : List ℕ) : Option TrendOut :=
  if counts.length < 3 then none
  else
    let recent_avg := mean ((counts.drop (counts.length - 3)).map (fun n => (n : ℚ)))
    let older_avg := mean ((counts.take (counts.length - 3)).map (fun n => (n : ℚ)))
    if recent_avg > older_avg * (3/2) then
      some ⟨topic, "medium", 75, counts.sum,
            (recent_avg - older_avg) / counts.length, recent_avg, older_avg⟩
    else none

/-- Urgency attached by the velocity trend classification chain. -/
def velocityUrgency (velocity : ℚ) : String :=
  if velocity > 2 then "high"
  else if velocity > 1/2 then "medium"
  else "low"

/-- One per-topic record of the dictionary returned by
`VelocityTracker.calculate_topic_velocity`. -/
structure VelocityEntry where
  velocity : ℚ
  trend : String
  urgency : String
  recent_avg : ℚ
  older_avg : ℚ
  momentum : ℤ
  data_points : ℕ
  latest_count : ℕ
deriving DecidableEq

/-- `VelocityTracker.calculate_topic_velocity` over the fetched rows:
split each topic series at `len // 2`, compare period averages, and
classify the rate `(recent_avg - older_avg) / (len / 2)`. -/
def calculate_topic_velocity (rows : List HourRow) : List (String × VelocityEntry) :=
  if rows.isEmpty then []
  else
    (groupCounts rows).filterMap (fun tc =>
      let counts := tc.2
      if counts.length < 3 then none
      else
        let split_point := counts.length / 2
        let older_counts := counts.take split_point
        let recent_counts := counts.drop split_point
        if older_counts.isEmpty ∨ recent_counts.isEmpty then none
        else
          let older_avg := mean (older_counts.map (fun n => (n : ℚ)))
          let recent_avg := mean (recent_counts.map (fun n => (n : ℚ)))
          let time_span := counts.length
          let velocity :=
            if time_span > 0 then (recent_avg - older_avg) / ((time_span : ℚ) / 2) else 0
          let momentum : ℤ :=
            if 2 ≤ recent_counts.length then
              (recent_counts.getD (recent_counts.length - 1) 0 : ℤ) -
                (recent_counts.getD (recent_counts.length - 2) 0 : ℤ)
            else 0
          some (tc.1,
            ⟨roundTo 2 velocity, velocityTrend velocity, velocityUrgency velocity,
             roundTo 1 recent_avg, roundTo 1 older_avg, momentum,
             counts.length, (counts.getLast?).getD 0⟩))

/-! ### Theorems -/

/-- C1: for every signal, `score_signal` returns a value in `[0, 100]`,
and the score is a pure deterministic function of the urgency,
signal type, confidence score and source count fields: two signals
equal on those four fields receive equal scores, whatever the
(fixed, pure) logarithm function is. -/
theorem score_signal_range_and_deterministic (lg : ℕ → ℚ) (s t : Signal)
    (hu : s.urgency = t.urgency) (hty : s.signal_type = t.signal_type)
    (hc : s.confidence_score = t.confidence_score)
    (hsc : s.source_count = t.source_count) :
    (0 ≤ score_signal lg s ∧ score_signal lg s ≤ 100) ∧
      score_signal lg s = score_signal lg t := by
  refine ⟨⟨le_min (by norm_num) (le_max_left 0 _), min_le_left _ _⟩, ?_⟩
  unfold score_signal
  rw [hu, hty, hc, hsc]

/-- Witness for C1 at two concrete signals differing only in topic. -/
theorem score_signal_range_and_deterministic_witness :
    (0 ≤ score_signal (fun _ => 0) ⟨"spike", "inflation", "high", 80, 10, none⟩ ∧
      score_signal (fun _ => 0) ⟨"spike", "inflation", "high", 80, 10, none⟩ ≤ 100) ∧
    score_signal (fun _ => 0) ⟨"spike", "inflation", "high", 80, 10, none⟩ =
      score_signal (fun _ => 0) ⟨"spike", "fuel prices", "high", 80, 10, none⟩ :=
  score_signal_range_and_deterministic (fun _ => 0) _ _ rfl rfl rfl rfl

/-- C2: the five velocity trend bands are a total, mutually exclusive
classification of the rate: each band is returned exactly on its
half-open interval, so every rate receives exactly one band. -/
theorem velocityTrend_bands (rate : ℚ) :
    (velocityTrend rate = "ACCELERATING" ↔ 2 < rate) ∧
    (velocityTrend rate = "GROWING" ↔ 1/2 < rate ∧ rate ≤ 2) ∧
    (velocityTrend rate = "STABLE" ↔ -(1/2) < rate ∧ rate ≤ 1/2) ∧
    (velocityTrend rate = "DECLINING" ↔ -2 < rate ∧ rate ≤ -(1/2)) ∧
    (velocityTrend rate = "FADING" ↔ rate ≤ -2) := by
  unfold velocityTrend
  split_ifs with h1 h2 h3 h4 <;>
    refine ⟨?_, ?_, ?_, ?_, ?_⟩ <;> simp <;>
    first
      | linarith
      | (constructor <;> linarith)
      | (rintro h5 h6; linarith)
      | (intro h5; linarith)

/-- Witness for C2 at rate 3. -/
theorem velocityTrend_bands_witness : velocityTrend 3 = "ACCELERATING" :=
  ((velocityTrend_bands 3).1).2 (by norm_num)

/-- C9: when the query capability returns no rows, spike detection
returns an empty signal list (for any threshold), velocity tracking
returns an empty map, and downstream stages map the empty collection
to empty results rather than raising. -/
theorem empty_rows_empty_results (threshold_multiplier : ℚ) (lg : ℕ → ℚ) :
    detect_topic_spikes threshold_multiplier [] = [] ∧
    calculate_topic_velocity [] = [] ∧
    detect_trending_topics [] = [] ∧
    rank_signals lg [] = [] ∧
    detect_correlation_warnings [] = [] ∧
    detect_persistence_warnings [] = [] ∧
    detect_cascade_warnings [] = [] :=
  ⟨rfl, rfl, rfl, rfl, rfl, rfl, rfl⟩

/-- C5, behaviour at the failing input: two signals on topic
"fuel prices" with urgencies "critical" and "medium" and 30 sources
each (total 60 > 50).  The persistence rule emits the expected single
MEDIUM warning, but its `current_urgency` is the Python string maximum
of the urgencies, which is lexicographic: it returns "medium", not the
"critical" demanded by the urgency ordering low < medium < high <
critical. -/
theorem persistence_warning_lexicographic_max :
    detect_persistence_warnings
        [⟨"spike", "fuel prices", "critical", 90, 30, none⟩,
         ⟨"spike", "fuel prices", "medium", 90, 30, none⟩] =
      [⟨"persistence", "fuel prices", "MEDIUM", "medium"⟩] ∧
    pyMaxStr ["critical", "medium"] = "medium" :=
  ⟨rfl, rfl⟩

/-- C10: the cascade rule fires a CRITICAL warning for a chain whenever
some signal topic contains a trigger keyword and some signal topic
contains an effect keyword of that chain; the two signals are not
required to be distinct, so one signal containing both suffices
(instantiate `s1 = s2`). -/
theorem cascade_fires_on_trigger_and_effect (signals : List Signal)
    (c : CascadeChain) (hc : c ∈ cascade_chains)
    (s1 : Signal) (hs1 : s1 ∈ signals) (ht : triggerMatch c s1 = true)
    (s2 : Signal) (hs2 : s2 ∈ signals) (he : effectMatch c s2 = true) :
    (⟨"cascade", chainTopic c, "CRITICAL", "critical"⟩ : Warning) ∈
      detect_cascade_warnings signals := by
  unfold detect_cascade_warnings
  refine List.mem_filterMap.2 ⟨c, hc, ?_⟩
  have h1 : signals.filter (triggerMatch c) ≠ [] := by
    intro h
    have hm := List.mem_filter.2 ⟨hs1, ht⟩
    rw [h] at hm
    exact absurd hm (List.not_mem_nil _)
  have h2 : signals.filter (effectMatch c) ≠ [] := by
    intro h
    have hm := List.mem_filter.2 ⟨hs2, he⟩
    rw [h] at hm
    exact absurd hm (List.not_mem_nil _)
  simp only [if_pos (And.intro h1 h2)]

/-- Witness for C10: a single signal whose topic contains both the
trigger "power cut" and the effect "water shortage" of the
infrastructure chain fires that CRITICAL cascade warning by itself. -/
theorem cascade_fires_on_trigger_and_effect_witness :
    (⟨"cascade", "infrastructure_cascade", "CRITICAL", "critical"⟩ : Warning) ∈
      detect_cascade_warnings
        [⟨"spike", "power cut causing water shortage", "high", 80, 10, none⟩] := by
  have h := cascade_fires_on_trigger_and_effect
    [⟨"spike", "power cut causing water shortage", "high", 80, 10, none⟩]
    ⟨["power cut"], ["water shortage", "public transport"], "Infrastructure Cascade"⟩
    (by decide)
    ⟨"spike", "power cut causing water shortage", "high", 80, 10, none⟩
    (List.mem_singleton.2 rfl) (by decide)
    ⟨"spike", "power cut causing water shortage", "high", 80, 10, none⟩
    (List.mem_singleton.2 rfl) (by decide)
  exact h

/-- A filtered list has length at least 1 exactly when some element
satisfies the predicate. -/
lemma one_le_length_filter {α : Type} (p : α → Bool) (l : List α) :
    1 ≤ (l.filter p).length ↔ ∃ a ∈ l, p a = true := by
  rw [Nat.one_le_iff_ne_zero, Ne, List.length_eq_zero, List.filter_eq_nil_iff]
  push_neg
  simp

/-- C8: on the two-signal input (topics "fuel prices" and "inflation",
both urgency high) the correlation rule emits exactly one warning, for
the economic cluster, with priority HIGH.  In general a cluster warning
is emitted exactly when at least 2 signals match the cluster keywords;
the economic warning has priority HIGH when some matching signal is
high or critical urgency and MEDIUM otherwise, and the infrastructure
warning always has priority HIGH. -/
theorem correlation_cluster_warnings (signals : List Signal) :
    detect_correlation_warnings
        [⟨"spike", "fuel prices", "high", 80, 10, none⟩,
         ⟨"spike", "inflation", "high", 80, 12, none⟩] =
      [⟨"correlation", "economic_cluster", "HIGH", "high"⟩] ∧
    ((∃ w ∈ detect_correlation_warnings signals, w.topic = "economic_cluster") ↔
      2 ≤ (signals.filter (topicMatches economicCorrTopics)).length) ∧
    (∀ w ∈ detect_correlation_warnings signals, w.topic = "economic_cluster" →
      ((∃ s ∈ signals.filter (topicMatches economicCorrTopics),
          s.urgency = "critical" ∨ s.urgency = "high") → w.priority = "HIGH") ∧
      ((¬ ∃ s ∈ signals.filter (topicMatches economicCorrTopics),
          s.urgency = "critical" ∨ s.urgency = "high") → w.priority = "MEDIUM")) ∧
    ((∃ w ∈ detect_correlation_warnings signals, w.topic = "infrastructure_cluster") ↔
      2 ≤ (signals.filter (topicMatches infraCorrTopics)).length) ∧
    (∀ w ∈ detect_correlation_warnings signals, w.topic = "infrastructure_cluster" →
      w.priority = "HIGH") := by
  refine ⟨rfl, ?_, ?_, ?_, ?_⟩
  · simp only [detect_correlation_warnings]
    by_cases h1 : 2 ≤ (signals.filter (topicMatches economicCorrTopics)).length <;>
      by_cases h3 : 2 ≤ (signals.filter (topicMatches infraCorrTopics)).length <;>
      simp [h1, h3]
  · intro w hw htop
    have hEx := one_le_length_filter
      (fun s => decide (s.urgency = "critical" ∨ s.urgency = "high"))
      (signals.filter (topicMatches economicCorrTopics))
    simp only [decide_eq_true_eq] at hEx
    simp only [detect_correlation_warnings, List.mem_append] at hw
    rcases hw with hw | hw
    · by_cases h1 : 2 ≤ (signals.filter (topicMatches economicCorrTopics)).length
      · rw [if_pos h1, List.mem_singleton] at hw
        subst hw
        constructor
        · rintro ⟨s, hs, hP⟩
          have hc : 1 ≤ ((signals.filter (topicMatches economicCorrTopics)).filter
              (fun s => decide (s.urgency = "critical" ∨ s.urgency = "high"))).length :=
            hEx.2 ⟨s, hs, hP⟩
          show (if _ then "HIGH" else "MEDIUM") = "HIGH"
          exact if_pos hc
        · intro hn
          have hc : ¬ 1 ≤ ((signals.filter (topicMatches economicCorrTopics)).filter
              (fun s => decide (s.urgency = "critical" ∨ s.urgency = "high"))).length :=
            fun hc => hn (hEx.1 hc)
          show (if _ then "HIGH" else "MEDIUM") = "MEDIUM"
          exact if_neg hc
      · rw [if_neg h1] at hw
        exact absurd hw (List.not_mem_nil w)
    · by_cases h3 : 2 ≤ (signals.filter (topicMatches infraCorrTopics)).length
      · rw [if_pos h3, List.mem_singleton] at hw
        subst hw
        simp at htop
      · rw [if_neg h3] at hw
        exact absurd hw (List.not_mem_nil w)
  · simp only [detect_correlation_warnings]
    by_cases h1 : 2 ≤ (signals.filter (topicMatches economicCorrTopics)).length <;>
      by_cases h3 : 2 ≤ (signals.filter (topicMatches infraCorrTopics)).length <;>
      simp [h1, h3]
  · intro w hw htop
    simp only [detect_correlation_warnings, List.mem_append] at hw
    rcases hw with hw | hw
    · by_cases h1 : 2 ≤ (signals.filter (topicMatches economicCorrTopics)).length
      · rw [if_pos h1, List.mem_singleton] at hw
        subst hw
        simp at htop
      · rw [if_neg h1] at hw
        exact absurd hw (List.not_mem_nil w)
    · by_cases h3 : 2 ≤ (signals.filter (topicMatches infraCorrTopics)).length
      · rw [if_pos h3, List.mem_singleton] at hw
        subst hw
        rfl
      · rw [if_neg h3] at hw
        exact absurd hw (List.not_mem_nil w)

/-- Witness for C8 at the two-signal scenario input. -/
theorem correlation_cluster_warnings_witness :
    ∃ w ∈ detect_correlation_warnings
        [⟨"spike", "fuel prices", "high", 80, 10, none⟩,
         ⟨"spike", "inflation", "high", 80, 12, none⟩],
      w.topic = "economic_cluster" :=
  (correlation_cluster_warnings _).2.1.2 (by decide)

/-- C7: the overall business risk score is the weighted sum of the four
component index scores with fixed weights 0.35 (economic), 0.35
(operational), 0.15 (weather), 0.15 (social); when the component
scores are 80, 60, 0, 0 the overall score is 49.0 and the level is
MEDIUM (49 < 50). -/
theorem overall_risk_weighted_sum (signals : List Signal)
    (he : (calculate_economic_stress_index signals).score = 80)
    (ho : (calculate_operational_risk_index signals).score = 60)
    (hw : (calculate_weather_impact_index signals).score = 0)
    (hs : (calculate_social_unrest_index signals).score = 0) :
    (∀ l : List Signal, (get_overall_business_risk_score l).overall_score =
      roundTo 1 (35/100 * (calculate_economic_stress_index l).score +
        35/100 * (calculate_operational_risk_index l).score +
        15/100 * (calculate_weather_impact_index l).score +
        15/100 * (calculate_social_unrest_index l).score)) ∧
    (get_overall_business_risk_score signals).overall_score = 49 ∧
    (get_overall_business_risk_score signals).level = "MEDIUM" := by
  have hcomp : ((RISK_WEIGHTS.map
      (fun kw => componentScore (calculate_all_indices signals) kw.1 * kw.2)).sum) = 49 := by
    simp [RISK_WEIGHTS, componentScore, calculate_all_indices, he, ho, hw, hs]
    norm_num
  refine ⟨?_, ?_, ?_⟩
  · intro l
    simp [get_overall_business_risk_score, calculate_all_indices, RISK_WEIGHTS,
      componentScore]
    congr 1
    ring
  · simp only [get_overall_business_risk_score]
    rw [hcomp]
    norm_num [roundTo, roundHalfEven]
  · simp only [get_overall_business_risk_score]
    rw [hcomp]
    norm_num [levelOf]

/-- Witness for C7: one critical economic signal with confidence 80 and
one critical infrastructure signal with confidence 60 and 100 sources
give component scores (80, 60, 0, 0), overall 49.0, level MEDIUM. -/
theorem overall_risk_weighted_sum_witness :
    (get_overall_business_risk_score
        [⟨"spike", "inflation", "critical", 80, 10, none⟩,
         ⟨"spike", "power cut", "critical", 60, 100, none⟩]).overall_score = 49 ∧
    (get_overall_business_risk_score
        [⟨"spike", "inflation", "critical", 80, 10, none⟩,
         ⟨"spike", "power cut", "critical", 60, 100, none⟩]).level = "MEDIUM" := by
  have hfE : List.filter (topicMatches ECONOMIC_TOPICS)
      [⟨"spike", "inflation", "critical", 80, 10, none⟩,
       ⟨"spike", "power cut", "critical", 60, 100, none⟩] =
      [⟨"spike", "inflation", "critical", 80, 10, none⟩] := by decide
  have hfI : List.filter (topicMatches INFRASTRUCTURE_TOPICS)
      [⟨"spike", "inflation", "critical", 80, 10, none⟩,
       ⟨"spike", "power cut", "critical", 60, 100, none⟩] =
      [⟨"spike", "power cut", "critical", 60, 100, none⟩] := by decide
  have hfW : List.filter (topicMatches WEATHER_TOPICS)
      [⟨"spike", "inflation", "critical", 80, 10, none⟩,
       ⟨"spike", "power cut", "critical", 60, 100, none⟩] = [] := by decide
  have hfP : List.filter (topicMatches POLITICAL_TOPICS)
      [⟨"spike", "inflation", "critical", 80, 10, none⟩,
       ⟨"spike", "power cut", "critical", 60, 100, none⟩] = [] := by decide
  have he : (calculate_economic_stress_index
      [⟨"spike", "inflation", "critical", 80, 10, none⟩,
       ⟨"spike", "power cut", "critical", 60, 100, none⟩]).score = 80 := by
    simp [calculate_economic_stress_index, urgencyConfidenceIndex, hfE,
      dictGetD, URGENCY_SCORES]
    norm_num [roundTo, roundHalfEven]
  have ho : (calculate_operational_risk_index
      [⟨"spike", "inflation", "critical", 80, 10, none⟩,
       ⟨"spike", "power cut", "critical", 60, 100, none⟩]).score = 60 := by
    simp [calculate_operational_risk_index, hfI, dictGetD, URGENCY_SCORES]
    norm_num [roundTo, roundHalfEven]
  have hw : (calculate_weather_impact_index
      [⟨"spike", "inflation", "critical", 80, 10, none⟩,
       ⟨"spike", "power cut", "critical", 60, 100, none⟩]).score = 0 := by
    simp [calculate_weather_impact_index, urgencyConfidenceIndex, hfW]
  have hs : (calculate_social_unrest_index
      [⟨"spike", "inflation", "critical", 80, 10, none⟩,
       ⟨"spike", "power cut", "critical", 60, 100, none⟩]).score = 0 := by
    simp [calculate_social_unrest_index, hfP]
  have h := overall_risk_weighted_sum _ he ho hw hs
  exact ⟨h.2.1, h.2.2⟩

/-- Round-half-to-even is monotone. -/
lemma roundHalfEven_mono {q r : ℚ} (h : q ≤ r) : roundHalfEven q ≤ roundHalfEven r := by
  rcases lt_or_eq_of_le (Int.floor_le_floor h) with hf | hf
  · have h1 : roundHalfEven q ≤ ⌊q⌋ + 1 := by
      unfold roundHalfEven
      dsimp only
      split_ifs <;> omega
    have h2 : ⌊r⌋ ≤ roundHalfEven r := by
      unfold roundHalfEven
      dsimp only
      split_ifs <;> omega
    omega
  · unfold roundHalfEven
    dsimp only
    rw [← hf]
    split_ifs <;> first | omega | linarith

/-- Python rounding to `d` decimal places is monotone. -/
lemma roundTo_mono (d : ℕ) {q r : ℚ} (h : q ≤ r) : roundTo d q ≤ roundTo d r := by
  unfold roundTo
  gcongr
  exact_mod_cast roundHalfEven_mono (by gcongr)

/-- The urgency score table only produces values in `[0, 100]`. -/
lemma urgencyScore_bounds (u : String) :
    0 ≤ dictGetD URGENCY_SCORES u 0 ∧ dictGetD URGENCY_SCORES u 0 ≤ 100 := by
  simp only [URGENCY_SCORES, dictGetD]
  split_ifs <;> norm_num

/-- A per-signal contribution `urgency_score * confidence/100` is at
most 100 when the confidence is at most 100. -/
lemma contribution_le_100 (t : Signal) (hc : t.confidence_score ≤ 100) :
    dictGetD URGENCY_SCORES t.urgency 0 * (t.confidence_score / 100) ≤ 100 := by
  obtain ⟨hu0, hu1⟩ := urgencyScore_bounds t.urgency
  rcases le_or_lt t.confidence_score 0 with h0 | h0
  · have hd : t.confidence_score / 100 ≤ 0 := by
      apply div_nonpos_of_nonpos_of_nonneg h0
      norm_num
    calc dictGetD URGENCY_SCORES t.urgency 0 * (t.confidence_score / 100) ≤ 0 :=
          mul_nonpos_of_nonneg_of_nonpos hu0 hd
      _ ≤ 100 := by norm_num
  · have hd1 : t.confidence_score / 100 ≤ 1 := by
      rw [div_le_one (by norm_num : (0:ℚ) < 100)]
      exact hc
    have hd0 : 0 ≤ t.confidence_score / 100 := by positivity
    calc dictGetD URGENCY_SCORES t.urgency 0 * (t.confidence_score / 100) ≤ 100 * 1 :=
          mul_le_mul hu1 hd1 hd0 (by norm_num)
      _ = 100 := by norm_num

/-- Appending a matching critical-urgency, confidence-100 signal never
decreases an urgency-confidence style index, as long as every existing
signal has confidence at most 100. -/
lemma urgencyConfidenceIndex_append_mono (cats : List String) (signals : List Signal)
    (s : Signal) (hconf : ∀ t ∈ signals, t.confidence_score ≤ 100)
    (hmatch : topicMatches cats s = true)
    (hu : s.urgency = "critical") (hc : s.confidence_score = 100) :
    (urgencyConfidenceIndex cats signals).score ≤
      (urgencyConfidenceIndex cats (signals ++ [s])).score := by
  have hfa : (signals ++ [s]).filter (topicMatches cats) =
      signals.filter (topicMatches cats) ++ [s] := by
    rw [List.filter_append]
    simp [hmatch]
  have hsval : dictGetD URGENCY_SCORES s.urgency 0 * (s.confidence_score / 100) = 100 := by
    rw [hu, hc]
    norm_num [dictGetD, URGENCY_SCORES]
  by_cases hM : signals.filter (topicMatches cats) = []
  · have hnew : (signals ++ [s]).filter (topicMatches cats) = [s] := by
      rw [hfa, hM]
      rfl
    simp only [urgencyConfidenceIndex, hM, hnew, List.isEmpty_nil, List.isEmpty_cons,
      List.map_cons, List.map_nil, List.sum_cons, List.sum_nil,
      List.length_cons, List.length_nil, hsval]
    norm_num [roundTo, roundHalfEven]
  · set M := signals.filter (topicMatches cats) with hMdef
    have hn : 0 < M.length := List.length_pos.2 hM
    have hq : (0:ℚ) < (M.length : ℚ) := by exact_mod_cast hn
    set T := (M.map (fun t =>
      dictGetD URGENCY_SCORES t.urgency 0 * (t.confidence_score / 100))).sum with hTdef
    have hT : T ≤ (M.length : ℚ) * 100 := by
      have hb : ∀ x ∈ M.map (fun t =>
          dictGetD URGENCY_SCORES t.urgency 0 * (t.confidence_score / 100)), x ≤ (100:ℚ) := by
        intro x hx
        obtain ⟨t, ht, rfl⟩ := List.mem_map.1 hx
        exact contribution_le_100 t (hconf t (List.mem_filter.1 ht).1)
      have hs2 := List.sum_le_card_nsmul _ _ hb
      rw [List.length_map] at hs2
      rw [hTdef]
      calc (M.map (fun t =>
            dictGetD URGENCY_SCORES t.urgency 0 * (t.confidence_score / 100))).sum
          ≤ M.length • (100:ℚ) := hs2
        _ = (M.length : ℚ) * 100 := by rw [nsmul_eq_mul]
    have hMne : ¬ M.isEmpty = true := by
      rw [List.isEmpty_iff]
      exact hM
    have hMsne : ¬ (M ++ [s]).isEmpty = true := by
      rw [List.isEmpty_iff]
      simp
    have hp1 : ((M.length : ℚ) * 100 > 0) := by positivity
    have hp2 : (((M ++ [s]).length : ℚ) * 100 > 0) := by
      have : (0:ℚ) < ((M ++ [s]).length : ℚ) := by
        have : 0 < (M ++ [s]).length := by simp
        exact_mod_cast this
      positivity
    simp only [urgencyConfidenceIndex, hfa, ← hMdef, hMne, hMsne, if_false,
      Bool.false_eq_true, List.map_append, List.sum_append, List.map_cons,
      List.map_nil, List.sum_cons, List.sum_nil, hsval, ← hTdef]
    rw [if_pos hp1, if_pos hp2]
    apply roundTo_mono
    have hlen : ((M ++ [s]).length : ℚ) = (M.length : ℚ) + 1 := by
      rw [List.length_append, List.length_singleton]
      push_cast
      ring
    rw [hlen, div_mul_eq_mul_div, div_mul_eq_mul_div,
      div_le_div_iff hp1 (by positivity : (0:ℚ) < ((M.length : ℚ) + 1) * 100)]
    nlinarith [hT, hq]

/-- C3 counterexample: for the operational risk index, appending a
matching critical-urgency, confidence-100 signal with source count 1
strictly decreases the score.  The existing signal carries the full
1.5 volume boost (source count 100) and contributes 150; the appended
signal only contributes 101, pulling the normalised mean down from
100.0 to 83.7. -/
theorem operational_index_append_can_decrease :
    (calculate_operational_risk_index
        ([⟨"spike", "power cut", "critical", 100, 100, none⟩] ++
          [⟨"spike", "power cut", "critical", 100, 1, none⟩])).score <
      (calculate_operational_risk_index
        [⟨"spike", "power cut", "critical", 100, 100, none⟩]).score ∧
    topicMatches INFRASTRUCTURE_TOPICS
      ⟨"spike", "power cut", "critical", 100, 1, none⟩ = true := by
  refine ⟨?_, by decide⟩
  show (calculate_operational_risk_index
      [⟨"spike", "power cut", "critical", 100, 100, none⟩,
       ⟨"spike", "power cut", "critical", 100, 1, none⟩]).score <
    (calculate_operational_risk_index
      [⟨"spike", "power cut", "critical", 100, 100, none⟩]).score
  have hf1 : List.filter (topicMatches INFRASTRUCTURE_TOPICS)
      [⟨"spike", "power cut", "critical", 100, 100, none⟩] =
      [⟨"spike", "power cut", "critical", 100, 100, none⟩] := by decide
  have hf2 : List.filter (topicMatches INFRASTRUCTURE_TOPICS)
      [⟨"spike", "power cut", "critical", 100, 100, none⟩,
       ⟨"spike", "power cut", "critical", 100, 1, none⟩] =
      [⟨"spike", "power cut", "critical", 100, 100, none⟩,
       ⟨"spike", "power cut", "critical", 100, 1, none⟩] := by decide
  have h1 : (calculate_operational_risk_index
      [⟨"spike", "power cut", "critical", 100, 100, none⟩]).score = 100 := by
    simp [calculate_operational_risk_index, hf1, dictGetD, URGENCY_SCORES]
    norm_num [roundTo, roundHalfEven]
  have h2 : (calculate_operational_risk_index
      [⟨"spike", "power cut", "critical", 100, 100, none⟩,
       ⟨"spike", "power cut", "critical", 100, 1, none⟩]).score = 837/10 := by
    simp [calculate_operational_risk_index, hf2, dictGetD, URGENCY_SCORES]
    norm_num [roundTo, roundHalfEven]
  rw [h1, h2]
  norm_num

/-- C3 amended: for the economic stress and weather impact indices
(whose per-signal contribution is urgency score times confidence and
has no volume factor), appending one keyword-matching signal with
urgency critical and confidence 100 never decreases the index score,
provided every existing signal has confidence at most 100 (the
documented range of `confidence_score`). -/
theorem econ_weather_index_append_mono (signals : List Signal) (s : Signal)
    (hconf : ∀ t ∈ signals, t.confidence_score ≤ 100)
    (hu : s.urgency = "critical") (hc : s.confidence_score = 100) :
    (topicMatches ECONOMIC_TOPICS s = true →
      (calculate_economic_stress_index signals).score ≤
        (calculate_economic_stress_index (signals ++ [s])).score) ∧
    (topicMatches WEATHER_TOPICS s = true →
      (calculate_weather_impact_index signals).score ≤
        (calculate_weather_impact_index (signals ++ [s])).score) :=
  ⟨fun hm => urgencyConfidenceIndex_append_mono ECONOMIC_TOPICS signals s hconf hm hu hc,
   fun hm => urgencyConfidenceIndex_append_mono WEATHER_TOPICS signals s hconf hm hu hc⟩

/-- Witness for the amended C3 at a concrete economic signal list. -/
theorem econ_weather_index_append_mono_witness :
    (calculate_economic_stress_index
        [⟨"spike", "inflation", "low", 50, 1, none⟩]).score ≤
      (calculate_economic_stress_index
        ([⟨"spike", "inflation", "low", 50, 1, none⟩] ++
          [⟨"spike", "inflation", "critical", 100, 1, none⟩])).score :=
  (econ_weather_index_append_mono _ _
    (by
      intro t ht
      rw [List.mem_singleton] at ht
      subst ht
      norm_num) rfl rfl).1 (by decide)

/-- C6 counterexample: on a topic with exactly 3 hourly buckets
`[4, 1, 1]` the code takes `older_avg = counts[0] = 4` and emits
nothing (recent mean 2 is not above 6), while the specification text
(older average = mean of all buckets before the last 3, an empty
prefix) would flag an upward trend with velocity 2/3. -/
theorem trend_three_bucket_spec_mismatch :
    detect_trending_topics [⟨"t", 4⟩, ⟨"t", 1⟩, ⟨"t", 1⟩] = [] ∧
    trendForTopic "t" [4, 1, 1] = none ∧
    trendForTopicSpec "t" [4, 1, 1] = some ⟨"t", "medium", 75, 6, 2/3, 2, 0⟩ := by
  have hcode : trendForTopic "t" [4, 1, 1] = none := by
    norm_num [trendForTopic, mean]
  refine ⟨?_, hcode, ?_⟩
  · have hg : groupCounts [⟨"t", 4⟩, ⟨"t", 1⟩, ⟨"t", 1⟩] = [("t", [4, 1, 1])] := by decide
    simp [detect_trending_topics, hg, hcode]
  · norm_num [trendForTopicSpec, mean]

/-- C6 amended: for a topic with at least 3 buckets, the older average
is the mean of all buckets before the last 3 when there are more than
3 buckets, and the first bucket count when there are exactly 3; a
trend signal is emitted exactly when the mean of the last 3 buckets
exceeds 1.5 times that older average, carrying velocity
`(recent_avg - older_avg) / bucket_count`; topics with fewer than 3
buckets are skipped. -/
theorem trend_rule_characterised (topic : String) (counts : List ℕ)
    (h3 : 3 ≤ counts.length) (older : ℚ)
    (holder : older = if 3 < counts.length
        then mean ((counts.take (counts.length - 3)).map (fun n => (n : ℚ)))
        else (counts.getD 0 0 : ℚ)) :
    ((trendForTopic topic counts).isSome = true ↔
      mean ((counts.drop (counts.length - 3)).map (fun n => (n : ℚ))) > older * (3/2)) ∧
    (∀ out, trendForTopic topic counts = some out →
      out.velocity = (mean ((counts.drop (counts.length - 3)).map (fun n => (n : ℚ))) - older) /
          counts.length ∧
      out.recent_avg = mean ((counts.drop (counts.length - 3)).map (fun n => (n : ℚ))) ∧
      out.older_avg = older ∧ out.topic = topic ∧ out.urgency = "medium" ∧
      out.confidence_score = 75 ∧ out.source_count = counts.sum) ∧
    (∀ cs : List ℕ, cs.length < 3 → trendForTopic topic cs = none) := by
  subst holder
  refine ⟨?_, ?_, ?_⟩
  · unfold trendForTopic
    rw [if_neg (not_lt.2 h3)]
    dsimp only
    by_cases hgt : mean ((counts.drop (counts.length - 3)).map (fun n => (n : ℚ))) >
        (if 3 < counts.length
          then mean ((counts.take (counts.length - 3)).map (fun n => (n : ℚ)))
          else (counts.getD 0 0 : ℚ)) * (3/2) <;>
      simp [hgt]
  · intro out hout
    unfold trendForTopic at hout
    rw [if_neg (not_lt.2 h3)] at hout
    dsimp only at hout
    by_cases hgt : mean ((counts.drop (counts.length - 3)).map (fun n => (n : ℚ))) >
        (if 3 < counts.length
          then mean ((counts.take (counts.length - 3)).map (fun n => (n : ℚ)))
          else (counts.getD 0 0 : ℚ)) * (3/2)
    · rw [if_pos hgt, Option.some.injEq] at hout
      subst hout
      exact ⟨rfl, rfl, rfl, rfl, rfl, rfl, rfl⟩
    · rw [if_neg hgt] at hout
      exact absurd hout (Option.noConfusion)
  · intro cs hcs
    unfold trendForTopic
    rw [if_pos hcs]

/-- Witness for the amended C6 at a 3-bucket series `[1, 5, 5]`:
recent mean 11/3 exceeds 1.5 times the first bucket count 1, so the
trend fires. -/
theorem trend_rule_characterised_witness :
    (trendForTopic "x" [1, 5, 5]).isSome = true :=
  (trend_rule_characterised "x" [1, 5, 5] (by norm_num) 1
    (by norm_num [List.getD])).1.2 (by norm_num [mean])

/-- C4 counterexample: two signals that tie on score (equal on all four
scoring fields, different topics).  The stable descending sort keeps
each input order, so ranking the list and ranking its reverse give
different outputs. -/
theorem rank_signals_reverse_differs :
    rank_signals (fun _ => 0)
        [⟨"spike", "inflation", "high", 80, 10, none⟩,
         ⟨"spike", "fuel prices", "high", 80, 10, none⟩] ≠
      rank_signals (fun _ => 0)
        (List.reverse
          [⟨"spike", "inflation", "high", 80, 10, none⟩,
           ⟨"spike", "fuel prices", "high", 80, 10, none⟩]) := by
  intro h
  have hAB : scoreGE
      (⟨"spike", "inflation", "high", 80, 10, none⟩,
        score_signal (fun _ => 0) ⟨"spike", "inflation", "high", 80, 10, none⟩)
      (⟨"spike", "fuel prices", "high", 80, 10, none⟩,
        score_signal (fun _ => 0) ⟨"spike", "fuel prices", "high", 80, 10, none⟩) :=
    le_of_eq rfl
  have hBA : scoreGE
      (⟨"spike", "fuel prices", "high", 80, 10, none⟩,
        score_signal (fun _ => 0) ⟨"spike", "fuel prices", "high", 80, 10, none⟩)
      (⟨"spike", "inflation", "high", 80, 10, none⟩,
        score_signal (fun _ => 0) ⟨"spike", "inflation", "high", 80, 10, none⟩) :=
    le_of_eq rfl
  have h1 : rank_signals (fun _ => 0)
      [⟨"spike", "inflation", "high", 80, 10, none⟩,
       ⟨"spike", "fuel prices", "high", 80, 10, none⟩] =
      [(⟨"spike", "inflation", "high", 80, 10, none⟩,
         score_signal (fun _ => 0) ⟨"spike", "inflation", "high", 80, 10, none⟩),
       (⟨"spike", "fuel prices", "high", 80, 10, none⟩,
         score_signal (fun _ => 0) ⟨"spike", "fuel prices", "high", 80, 10, none⟩)] := by
    simp only [rank_signals, List.map_cons, List.map_nil, List.insertionSort,
      List.orderedInsert]
    rw [if_pos hAB]
  have h2 : rank_signals (fun _ => 0)
      (List.reverse
        [⟨"spike", "inflation", "high", 80, 10, none⟩,
         ⟨"spike", "fuel prices", "high", 80, 10, none⟩]) =
      [(⟨"spike", "fuel prices", "high", 80, 10, none⟩,
         score_signal (fun _ => 0) ⟨"spike", "fuel prices", "high", 80, 10, none⟩),
       (⟨"spike", "inflation", "high", 80, 10, none⟩,
         score_signal (fun _ => 0) ⟨"spike", "inflation", "high", 80, 10, none⟩)] := by
    show rank_signals (fun _ => 0)
      [⟨"spike", "fuel prices", "high", 80, 10, none⟩,
       ⟨"spike", "inflation", "high", 80, 10, none⟩] = _
    simp only [rank_signals, List.map_cons, List.map_nil, List.insertionSort,
      List.orderedInsert]
    rw [if_pos hBA]
  rw [h1, h2] at h
  simp at h

/-- C4 amended: `rank_signals` is a descending sort of the scored
pairs: its output is sorted by score descending and is a permutation
of the scored input.  Applied to the reversed list it yields the same
descending sequence of scores, and when no two signals tie on score
it yields the identical output.  With ties present the two outputs can
differ, as the counterexample above shows, so the reversal-invariance
of the original claim fails. -/
theorem rank_signals_sorted_perm (lg : ℕ → ℚ) (signals : List Signal) :
    List.Sorted scoreGE (rank_signals lg signals) ∧
    (rank_signals lg signals).Perm
      (signals.map (fun s => (s, score_signal lg s))) ∧
    (rank_signals lg signals).map Prod.snd =
      (rank_signals lg signals.reverse).map Prod.snd ∧
    ((signals.map (score_signal lg)).Nodup →
      rank_signals lg signals = rank_signals lg signals.reverse) := by
  have hperm1 : (rank_signals lg signals).Perm
      (signals.map (fun s => (s, score_signal lg s))) :=
    List.perm_insertionSort scoreGE _
  have hperm1r : (rank_signals lg signals.reverse).Perm
      (signals.reverse.map (fun s => (s, score_signal lg s))) :=
    List.perm_insertionSort scoreGE _
  have hrev : (signals.reverse.map (fun s => (s, score_signal lg s))).Perm
      (signals.map (fun s => (s, score_signal lg s))) :=
    (List.reverse_perm signals).map _
  have hp : (rank_signals lg signals).Perm (rank_signals lg signals.reverse) :=
    hperm1.trans (hrev.symm.trans hperm1r.symm)
  have hs1 : List.Sorted scoreGE (rank_signals lg signals) :=
    List.sorted_insertionSort scoreGE _
  have hs2 : List.Sorted scoreGE (rank_signals lg signals.reverse) :=
    List.sorted_insertionSort scoreGE _
  refine ⟨hs1, hperm1, ?_, ?_⟩
  · haveI : IsAntisymm ℚ (fun a b : ℚ => b ≤ a) := ⟨fun a b h1 h2 => le_antisymm h2 h1⟩
    exact @List.eq_of_perm_of_sorted ℚ (fun a b : ℚ => b ≤ a) _ _ _
      (hp.map Prod.snd) (List.pairwise_map.2 hs1) (List.pairwise_map.2 hs2)
  · intro hnd
    have hnd1 : ((rank_signals lg signals).map Prod.snd).Nodup := by
      apply (List.Perm.nodup_iff (hperm1.map Prod.snd)).2
      rw [List.map_map]
      exact hnd
    have hnd2 : ((rank_signals lg signals.reverse).map Prod.snd).Nodup := by
      apply (List.Perm.nodup_iff (hperm1r.map Prod.snd)).2
      rw [List.map_map]
      exact ((List.reverse_perm signals).map (score_signal lg)).nodup_iff.2 hnd
    have strict1 : List.Pairwise (fun p q : Signal × ℚ => q.2 < p.2)
        (rank_signals lg signals) := by
      have hne : List.Pairwise (fun p q : Signal × ℚ => p.2 ≠ q.2)
          (rank_signals lg signals) := List.pairwise_map.1 hnd1
      exact (List.Pairwise.and hs1 hne).imp
        (fun h => lt_of_le_of_ne h.1 (Ne.symm h.2))
    have strict2 : List.Pairwise (fun p q : Signal × ℚ => q.2 < p.2)
        (rank_signals lg signals.reverse) := by
      have hne : List.Pairwise (fun p q : Signal × ℚ => p.2 ≠ q.2)
          (rank_signals lg signals.reverse) := List.pairwise_map.1 hnd2
      exact (List.Pairwise.and hs2 hne).imp
        (fun h => lt_of_le_of_ne h.1 (Ne.symm h.2))
    haveI : IsAntisymm (Signal × ℚ) (fun p q : Signal × ℚ => q.2 < p.2) :=
      ⟨fun a b h1 h2 => absurd (lt_trans h1 h2) (lt_irrefl _)⟩
    exact List.eq_of_perm_of_sorted hp strict1 strict2

/-- Witness for the amended C4: with two signals of distinct scores
(a clamped 100 and a 15) ranking the list and its reverse agree. -/
theorem rank_signals_sorted_perm_witness :
    rank_signals (fun _ => 0)
        [⟨"spike", "inflation", "critical", 100, 1, none⟩,
         ⟨"spike", "fuel prices", "low", 0, 1, none⟩] =
      rank_signals (fun _ => 0)
        (List.reverse
          [⟨"spike", "inflation", "critical", 100, 1, none⟩,
           ⟨"spike", "fuel prices", "low", 0, 1, none⟩]) :=
  (rank_signals_sorted_perm (fun _ => 0) _).2.2.2 (by
    simp [score_signal, dictGetD, URGENCY_WEIGHTS, TYPE_WEIGHTS]
    norm_num)
